import Mathlib

/-!
Verification of the explanation summarization engine of
`shapash/explainer/smart_explainer.py` (class `SmartExplainer`).

Matrices (pandas DataFrames in the source) are embedded as lists of rows;
contribution values are rationals.  The orchestration methods (`filter`,
`to_pandas`, `compute_features_stability`, `compute_features_compacity`,
`check_features_dict`, the `compile` argument check) are translated from
the source file.  Helper functions living in `shapash.manipulation`,
`shapash.utils` and `smart_state.py` are not part of the source tree
examined here; each of those is modelled from the specification and marked
as such in its doc comment.
-/

namespace Shapash

/-- A numeric table: rows of rational contribution / feature values. -/
abbrev QMat : Type := List (List ℚ)

/-- A boolean table (a visibility mask). -/
abbrev BMat : Type := List (List Bool)

/-- An integer table (`var_dict`: ranked feature identifiers). -/
abbrev NMat : Type := List (List Nat)

/-- Modelled from the spec: `init_mask` builds the all-true mask with the
same shape as `contrib_sorted` (base case of the mask algebra). -/
def init_mask (contrib : QMat) : BMat :=
  contrib.map (fun row => row.map (fun _ => true))

/-- Modelled from the spec: `hide_contributions` is false at every ranked
position whose `var_dict` entry is one of the given feature identifiers. -/
def hide_contributions (varDict : NMat) (features_list : List Nat) : BMat :=
  varDict.map (fun row => row.map (fun v => decide (v ∉ features_list)))

/-- Modelled from the spec: `cap_contributions` is false wherever the
absolute contribution is below the threshold. -/
def cap_contributions (contrib : QMat) (threshold : ℚ) : BMat :=
  contrib.map (fun row => row.map (fun c => decide (threshold ≤ abs c)))

/-- Modelled from the spec: `sign_contributions` keeps strictly positive
contributions when `positive` is requested, strictly negative ones
otherwise. -/
def sign_contributions (contrib : QMat) (positive : Bool) : BMat :=
  contrib.map (fun row => row.map (fun c =>
    if positive then decide (0 < c) else decide (c < 0)))

/-- Pointwise AND of two boolean rows. -/
def and_rows (a b : List Bool) : List Bool :=
  List.zipWith and a b

/-- Pointwise AND of two masks (shape-preserving combination). -/
def and_masks (a b : BMat) : BMat :=
  List.zipWith and_rows a b

/-- Modelled from the spec: `combine_masks` folds the supplied masks with
pointwise logical AND. -/
def combine_masks : List BMat → BMat
  | [] => []
  | m :: ms => ms.foldl and_masks m

/-- Number of `true` entries of a boolean row. -/
def trueCount : List Bool → Nat
  | [] => 0
  | b :: bs => (if b then 1 else 0) + trueCount bs

/-- One row of the cutoff: walk the row keeping a running count `cnt` of
`true` entries already seen; a `true` entry survives only while the count
stays at most `k`. -/
def cutoff_row (k : Int) : Int → List Bool → List Bool
  | _, [] => []
  | cnt, b :: bs =>
    if b then decide (cnt + 1 ≤ k) :: cutoff_row k (cnt + 1) bs
    else false :: cutoff_row k cnt bs

/-- Modelled from the spec: `cutoff_contributions` keeps, within each row
of the (already combined) mask, only the first `max_contrib` entries that
are still `true`, in rank order. -/
def cutoff_contributions (mask : BMat) (max_contrib : Int) : BMat :=
  mask.map (fun row => cutoff_row max_contrib 0 row)

/-- Modelled from the spec: `compute_masked_contributions` keeps the
contribution where the mask is true and an absent sentinel (`none`)
elsewhere — never zero, since zero is a valid contribution. -/
def compute_masked_contributions (contrib : QMat) (mask : BMat) :
    List (List (Option ℚ)) :=
  List.zipWith
    (fun crow mrow => List.zipWith (fun c b => if b then some c else none) crow mrow)
    contrib mask

/-- Modelled from the spec: resolve one feature name through the inverse
column / feature dictionaries into a column identifier; an unknown
identifier is rejected. -/
def feature_id (inv_columns_dict : List (String × Nat))
    (inv_features_dict : List (String × String)) (f : String) :
    Except String Nat :=
  match inv_columns_dict.lookup f with
  | some i => Except.ok i
  | none =>
    match inv_features_dict.lookup f with
    | some tech =>
      match inv_columns_dict.lookup tech with
      | some i => Except.ok i
      | none => Except.error "feature not found in the dataset"
    | none => Except.error "feature not found in the dataset"

/-- Modelled from the spec: `check_features_name` converts a list of
feature names into column identifiers compatible with `var_dict`,
rejecting unknown identifiers. -/
def check_features_name (inv_columns_dict : List (String × Nat))
    (inv_features_dict : List (String × String)) (features : List String) :
    Except String (List Nat) :=
  features.mapM (feature_id inv_columns_dict inv_features_dict)

/-- The four filter parameters cached in `mask_params` by
`SmartExplainer.filter`. -/
structure MaskParams where
  features_to_hide : Option (List String)
  threshold : Option ℚ
  positive : Option Bool
  max_contrib : Option Int
deriving DecidableEq

/-- The three parallel ranked tables stored in the `data` attribute. -/
structure ExplainerData where
  contrib_sorted : QMat
  var_dict : NMat
  x_sorted : QMat
deriving DecidableEq

/-- The session state of a compiled `SmartExplainer` (the attributes the
claims are about; groups of features are not declared, so the
`display_groups` branch of `filter` and `to_pandas` selects `data`). -/
structure SmartExplainer where
  data : ExplainerData
  columns_dict : List (Nat × String)
  features_dict : List (String × String)
  inv_columns_dict : List (String × Nat)
  inv_features_dict : List (String × String)
  y_pred : Option (List ℚ)
  mask : Option BMat
  masked_contributions : Option (List (List (Option ℚ)))
  mask_params : Option MaskParams
deriving DecidableEq

/-- Python truthiness of an optional list (`if features_to_hide:`). -/
def truthyList : Option (List String) → Bool
  | none => false
  | some l => decide (l ≠ [])

/-- Python truthiness of an optional rational (`if threshold:`). -/
def truthyRat : Option ℚ → Bool
  | none => false
  | some q => decide (q ≠ 0)

/-- Python truthiness of an optional integer (`if max_contrib:`). -/
def truthyInt : Option Int → Bool
  | none => false
  | some k => decide (k ≠ 0)

/-- The feature identifiers hidden by the call: resolved through
`check_features_name` when `features_to_hide` is truthy, empty otherwise
(from `SmartExplainer.filter`). -/
def resolved_fids (xpl : SmartExplainer) (p : MaskParams) :
    Except String (List Nat) :=
  if truthyList p.features_to_hide then
    check_features_name xpl.inv_columns_dict xpl.inv_features_dict
      (p.features_to_hide.getD [])
  else Except.ok []

/-- The list of criterion masks built by `SmartExplainer.filter`: the
all-true base mask, then one mask per supplied (truthy) criterion, in
source order. -/
def criteria_masks (xpl : SmartExplainer) (p : MaskParams)
    (fids : List Nat) : List BMat :=
  [init_mask xpl.data.contrib_sorted]
    ++ (if truthyList p.features_to_hide then
          [hide_contributions xpl.data.var_dict fids] else [])
    ++ (if truthyRat p.threshold then
          [cap_contributions xpl.data.contrib_sorted (p.threshold.getD 0)] else [])
    ++ (match p.positive with
        | some b => [sign_contributions xpl.data.contrib_sorted b]
        | none => [])

/-- The combined mask of `SmartExplainer.filter` before the cutoff:
`self.mask = self.state.combine_masks(mask)`. -/
def combined_mask (xpl : SmartExplainer) (p : MaskParams) :
    Except String BMat :=
  match resolved_fids xpl p with
  | Except.error e => Except.error e
  | Except.ok fids => Except.ok (combine_masks (criteria_masks xpl p fids))

/-- `SmartExplainer.filter`: build the list of criterion masks (all-true
base plus each truthy criterion), combine them with AND, apply the cutoff
last when `max_contrib` is truthy, store the mask, the masked
contributions and the parameters. -/
def filter (xpl : SmartExplainer) (p : MaskParams) :
    Except String SmartExplainer :=
  match combined_mask xpl p with
  | Except.error e => Except.error e
  | Except.ok combined =>
    let final :=
      if truthyInt p.max_contrib then
        cutoff_contributions combined (p.max_contrib.getD 0)
      else combined
    Except.ok { xpl with
      mask := some final
      masked_contributions :=
        some (compute_masked_contributions xpl.data.contrib_sorted final)
      mask_params := some p }

/-- Modelled from the spec: resolve the human-readable display name of the
ranked feature identifier `v` — through `columns_dict` to the technical
name, then through `features_dict`; a missing entry falls back to the raw
identifier. -/
def feature_display_name (columns_dict : List (Nat × String))
    (features_dict : List (String × String)) (v : Nat) : String :=
  let tech := (columns_dict.lookup v).getD ""
  (features_dict.lookup tech).getD tech

/-- Modelled from the spec: one summary row — the ordered (name, value,
contribution) triples of the surviving (mask-true) ranked positions of one
instance. -/
def summarize_row (cd : List (Nat × String)) (fd : List (String × String)) :
    List ℚ → List Nat → List ℚ → List Bool → List (String × ℚ × ℚ)
  | c :: cs, v :: vs, x :: xs, b :: bs =>
    (if b then [(feature_display_name cd fd v, x, c)] else [])
      ++ summarize_row cd fd cs vs xs bs
  | _, _, _, _ => []

/-- Modelled from the spec: `summarize` produces one summary row per
instance from the three parallel ranked tables and the mask. -/
def summarize (cd : List (Nat × String)) (fd : List (String × String)) :
    QMat → NMat → QMat → BMat → List (List (String × ℚ × ℚ))
  | c :: cs, v :: vs, x :: xs, m :: ms =>
    summarize_row cd fd c v x m :: summarize cd fd cs vs xs ms
  | _, _, _, _ => []

/-- `all(var is None for var in [features_to_hide, threshold, positive,
max_contrib])` in `SmartExplainer.to_pandas`. -/
def allNoneB (p : MaskParams) : Bool :=
  p.features_to_hide.isNone && p.threshold.isNone
    && p.positive.isNone && p.max_contrib.isNone

/-- The shape check of `to_pandas` on the cached mask:
`len(data["contrib_sorted"].columns) == len(self.mask.columns)`. -/
def shape_ok (contrib : QMat) (mask : BMat) : Bool :=
  decide ((contrib.headD []).length = (mask.headD []).length)

/-- `SmartExplainer.to_pandas` (regression path): require `y_pred`; reuse
the cached mask when no filter parameter is supplied, a cached
`mask_params` exists and the cached mask has the right column count,
otherwise re-run `filter`; summarize; join the prediction values with the
summary, one row per instance (`keep_right_contributions` and the final
`pd.concat` are modelled from the spec as the row-wise join). -/
def to_pandas (xpl : SmartExplainer) (p : MaskParams) :
    Except String (SmartExplainer × List (ℚ × List (String × ℚ × ℚ))) :=
  match xpl.y_pred with
  | none => Except.error "You have to specify y_pred argument. Please use add() or compile() method"
  | some ys =>
    let reuse : Bool :=
      allNoneB p &&
        (match xpl.mask_params, xpl.mask with
         | some _, some m => shape_ok xpl.data.contrib_sorted m
         | _, _ => false)
    match (if reuse then Except.ok xpl else filter xpl p) with
    | Except.error e => Except.error e
    | Except.ok xpl2 =>
      let summary := summarize xpl2.columns_dict xpl2.features_dict
        xpl2.data.contrib_sorted xpl2.data.var_dict xpl2.data.x_sorted
        (xpl2.mask.getD [])
      Except.ok (xpl2, ys.zip summary)

/-- The model case: single-output regression, or classification carrying
the ordered class labels (`self._case`, `self._classes`). -/
inductive Case where
  | regression
  | classification (classes : List Int)
deriving DecidableEq

/-- The guard of `compute_features_stability` and
`compute_features_compacity`:
`(self._case == "classification") and (len(self._classes) > 2)`. -/
def multiclass_guard : Case → Bool
  | Case.regression => false
  | Case.classification classes => decide (2 < classes.length)

/-- Squared Euclidean distance between two feature rows. -/
def sqdist (a b : List ℚ) : ℚ :=
  (List.zipWith (fun x y => (x - y) * (x - y)) a b).sum

/-- Insert an index into a list of indices sorted by increasing key. -/
def insertByKey (key : Nat → ℚ) (a : Nat) : List Nat → List Nat
  | [] => [a]
  | b :: bs => if key a ≤ key b then a :: b :: bs else b :: insertByKey key a bs

/-- Sort a list of indices by increasing key (insertion sort). -/
def sortByKey (key : Nat → ℚ) : List Nat → List Nat
  | [] => []
  | a :: as => insertByKey key a (sortByKey key as)

/-- Modelled from the spec: the neighbor set of instance `i` — the
instance itself followed by its `k` nearest other instances in feature
space by the declared numeric distance. -/
def neighbors_of (x : QMat) (k i : Nat) : List Nat :=
  let others := (List.range x.length).filter (fun j => decide (j ≠ i))
  i :: (sortByKey (fun j => sqdist (x.getD j []) (x.getD i [])) others).take k

/-- Modelled from the spec: `find_neighbors` — one neighbor set per
selected instance. -/
def find_neighbors (selection : List Nat) (x : QMat) (k : Nat) :
    List (List Nat) :=
  selection.map (neighbors_of x k)

/-- Maximum absolute value of a row (zero for an empty row). -/
def row_max_abs (r : List ℚ) : ℚ :=
  (r.map (fun c => abs c)).foldl max 0

/-- Modelled from the spec: normalize a contribution row by its maximum
absolute contribution, so values lie in the unit interval around zero. -/
def normalize_row (r : List ℚ) : List ℚ :=
  r.map (fun c => c / row_max_abs r)

/-- Arithmetic mean of a list of rationals (zero for an empty list). -/
def mean (l : List ℚ) : ℚ := l.sum / (l.length : ℚ)

/-- Column `j` of a matrix. -/
def column (m : QMat) (j : Nat) : List ℚ :=
  m.map (fun r => r.getD j 0)

/-- Modelled from the spec: `shap_neighbors` — for one neighbor set,
returns the normalized contribution rows of the instance and its
neighbors, the per-feature dispersion (mean absolute deviation) of those
normalized contributions, and the per-feature mean absolute normalized
contribution (amplitude), the latter two as rows of feature length. -/
def shap_neighbors (idxs : List Nat) (contributions : QMat) :
    List (List ℚ) × List ℚ × List ℚ :=
  let norm := idxs.map (fun i => normalize_row (contributions.getD i []))
  let ncols := (contributions.headD []).length
  let variability := (List.range ncols).map (fun j =>
    let col := column norm j
    let m := mean col
    mean (col.map (fun c => abs (c - m))))
  let amplitude := (List.range ncols).map (fun j =>
    mean ((column norm j).map (fun c => abs c)))
  (norm, variability, amplitude)

/-- The result stored by `compute_features_stability`: either the
`local_neighbors` dictionary (single-instance selection, key `norm_shap`)
or the `features_stability` dictionary (multi-instance selection, keys
`variability` and `amplitude`). -/
inductive StabilityResult where
  | localNeighbors (norm_shap : List (List ℚ))
  | featuresStability (variability : List (List ℚ)) (amplitude : List (List ℚ))
deriving DecidableEq

/-- `SmartExplainer.compute_features_stability`: reject multi-class
classification; for a single selected instance store the normalized
contributions of the instance and its neighbors under `local_neighbors`;
for several instances store the per-instance variability and amplitude
rows under `features_stability`. -/
def compute_features_stability (case : Case) (x_init : QMat)
    (contributions : QMat) (selection : List Nat) (k : Nat) :
    Except String StabilityResult :=
  if multiclass_guard case then
    Except.error "Multi-class classification is not supported"
  else
    let all_neighbors := find_neighbors selection x_init k
    if selection.length = 1 then
      Except.ok (StabilityResult.localNeighbors
        (shap_neighbors (all_neighbors.headD []) contributions).1)
    else
      Except.ok (StabilityResult.featuresStability
        (all_neighbors.map (fun nb => (shap_neighbors nb contributions).2.1))
        (all_neighbors.map (fun nb => (shap_neighbors nb contributions).2.2)))

/-- Insert a value into a row sorted by decreasing absolute value. -/
def insertDescAbs (a : ℚ) : List ℚ → List ℚ
  | [] => [a]
  | b :: bs => if abs b < abs a then a :: b :: bs else b :: insertDescAbs a bs

/-- Sort a row by decreasing absolute value (insertion sort). -/
def sortDescAbs : List ℚ → List ℚ
  | [] => []
  | a :: as => insertDescAbs a (sortDescAbs as)

/-- Modelled from the spec: the approximation distance of an instance when
its prediction is reconstructed from only the `nb` largest-magnitude
contributions — relative distance between the truncated and the full
contribution sum. -/
def approx_distance (row : List ℚ) (nb : Nat) : ℚ :=
  abs (row.sum - ((sortDescAbs row).take nb).sum) / abs row.sum

/-- Modelled from the spec: `get_distance` — the approximation distance of
each selected instance for a fixed feature count. -/
def get_distance (selection : List Nat) (contributions : QMat)
    (nb_features : Nat) : List ℚ :=
  selection.map (fun i => approx_distance (contributions.getD i []) nb_features)

/-- Modelled from the spec: `get_min_nb_features` — the smallest number of
top-ranked features keeping each selected instance within the target
approximation distance. -/
def get_min_nb_features (selection : List Nat) (contributions : QMat)
    (distance : ℚ) : List Nat :=
  selection.map (fun i =>
    let row := contributions.getD i []
    ((List.range (row.length + 1)).find?
      (fun nb => decide (approx_distance row nb ≤ distance))).getD row.length)

/-- `np.clip(x, 0, 1)`. -/
def clip01 (x : ℚ) : ℚ := max 0 (min 1 x)

/-- `SmartExplainer.compute_features_compacity`: reject multi-class
classification; otherwise store the per-instance minimum feature counts
and the per-instance approximation distances clipped to the unit
interval under `features_compacity`. -/
def compute_features_compacity (case : Case) (contributions : QMat)
    (selection : List Nat) (distance : ℚ) (nb_features : Nat) :
    Except String (List Nat × List ℚ) :=
  if multiclass_guard case then
    Except.error "Multi-class classification is not supported"
  else
    Except.ok (get_min_nb_features selection contributions distance,
      (get_distance selection contributions nb_features).map clip01)

/-- `SmartExplainer.check_features_dict`: every prediction-set column
missing from `features_dict` is added mapped to itself. -/
def check_features_dict (columns : List String)
    (features_dict : List (String × String)) : List (String × String) :=
  features_dict
    ++ (columns.filter (fun c => (features_dict.lookup c).isNone)).map
        (fun c => (c, c))

/-- Where the contributions used by a compilation come from: supplied by
the caller, or computed by the external attribution backend with the
given explainer. -/
inductive ContribSource (E C : Type) where
  | provided (c : C) (explainer : Option E)
  | fromBackend (explainer : Option E)
deriving DecidableEq

/-- The contribution-source resolution of `SmartExplainer.compile`:
supplying both an explainer and precomputed contributions is rejected;
with contributions absent they are computed from the backend. -/
def resolve_contributions {E C : Type} (explainer : Option E)
    (contributions : Option C) : Except String (ContribSource E C) :=
  if explainer.isSome && contributions.isSome then
    Except.error "You have to specify just one of these arguments: explainer, contributions"
  else
    match contributions with
    | none => Except.ok (ContribSource.fromBackend explainer)
    | some c => Except.ok (ContribSource.provided c explainer)

/-- A small compiled session: two instances, two features, contributions
already ranked by decreasing magnitude. -/
def exampleData : ExplainerData where
  contrib_sorted := [[3, -1], [5, 2]]
  var_dict := [[0, 1], [1, 0]]
  x_sorted := [[10, 20], [40, 30]]

/-- A small compiled explainer session over `exampleData`. -/
def exampleXpl : SmartExplainer where
  data := exampleData
  columns_dict := [(0, "age"), (1, "fare")]
  features_dict := [("age", "age"), ("fare", "fare")]
  inv_columns_dict := [("age", 0), ("fare", 1)]
  inv_features_dict := []
  y_pred := some [1, 0]
  mask := none
  masked_contributions := none
  mask_params := none

/-- The session after a `filter` call cached a mask and its parameters. -/
def exampleXplCached : SmartExplainer :=
  { exampleXpl with
    mask := some [[true, true], [true, true]]
    masked_contributions := some [[some 3, some (-1)], [some 5, some 2]]
    mask_params := some ⟨none, none, none, some 2⟩ }

lemma isOk_ok {ε α : Type} (a : α) : (Except.ok a : Except ε α).isOk = true := rfl

lemma isOk_error {ε α : Type} (e : ε) : (Except.error e : Except ε α).isOk = false := rfl

/-- Characterization of one cutoff row: position `j` survives exactly when
it was `true` and the number of `true` entries up to and including `j`
(plus the entries `cnt` already counted) does not exceed `k`. -/
lemma cutoff_row_getD (k : Int) :
    ∀ (row : List Bool) (cnt : Int) (j : Nat),
      ((cutoff_row k cnt row).getD j false = true ↔
        (row.getD j false = true ∧
          cnt + (trueCount (row.take (j + 1)) : Int) ≤ k))
  | [], cnt, j => by simp [cutoff_row, trueCount]
  | b :: bs, cnt, 0 => by
    cases b
    · simp [cutoff_row, trueCount]
    · simp only [cutoff_row, if_true, List.getD_cons_zero, List.take_succ_cons,
        List.take_zero, trueCount, decide_eq_true_eq]
      constructor
      · intro h; exact ⟨trivial, by push_cast; omega⟩
      · rintro ⟨-, h⟩; push_cast at h; omega
  | b :: bs, cnt, j + 1 => by
    cases b
    · simpa [cutoff_row, trueCount] using cutoff_row_getD k bs cnt j
    · have ih := cutoff_row_getD k bs (cnt + 1) j
      simp only [cutoff_row, decide_eq_true_eq, List.getD_cons_succ,
        List.take_succ_cons, trueCount, if_true] at ih ⊢
      rw [ih]
      constructor
      · rintro ⟨h1, h2⟩
        exact ⟨h1, by push_cast at h2 ⊢; omega⟩
      · rintro ⟨h1, h2⟩
        exact ⟨h1, by push_cast at h2 ⊢; omega⟩

/-- Row access commutes with the per-row cutoff. -/
lemma cutoff_contributions_getD (mask : BMat) (k : Int) :
    ∀ (i : Nat), (cutoff_contributions mask k).getD i [] =
      cutoff_row k 0 (mask.getD i []) := by
  induction mask with
  | nil => intro i; simp [cutoff_contributions, cutoff_row]
  | cons r rs ih =>
    intro i
    cases i with
    | zero => simp [cutoff_contributions]
    | succ n => simpa [cutoff_contributions] using ih n

/-- Masked contributions under the all-true base mask are the
contributions themselves (wrapped in the present sentinel). -/
lemma masked_init (contrib : QMat) :
    compute_masked_contributions contrib (init_mask contrib)
      = contrib.map (fun r => r.map some) := by
  unfold compute_masked_contributions init_mask
  induction contrib with
  | nil => rfl
  | cons r rs ih =>
    simp only [List.map_cons, List.zipWith_cons_cons, ih]
    congr 1
    induction r with
    | nil => rfl
    | cons a as ih2 => simp only [List.map_cons, List.zipWith_cons_cons, ih2, if_true]

/-- A `filter` call with every criterion left unset computes the all-true
base mask and keeps every contribution. -/
lemma filter_all_none_eq (xpl : SmartExplainer) :
    filter xpl ⟨none, none, none, none⟩ = Except.ok { xpl with
      mask := some (init_mask xpl.data.contrib_sorted)
      masked_contributions := some (compute_masked_contributions
        xpl.data.contrib_sorted (init_mask xpl.data.contrib_sorted))
      mask_params := some ⟨none, none, none, none⟩ } := by
  rfl

/-- A `filter` call that hides no features never errors, and caches
exactly the parameters it was called with. -/
lemma filter_none_hide_params (xpl : SmartExplainer) (q : MaskParams)
    (h : q.features_to_hide = none) :
    ∃ s, filter xpl q = Except.ok s ∧ s.mask_params = some q := by
  unfold filter combined_mask resolved_fids
  rw [h]
  exact ⟨_, rfl, rfl⟩

/-- C1: in `filter`, the cutoff criterion (`max_contrib`) is applied last,
to the mask obtained by AND-combining all other supplied criteria: the
stored mask is the cutoff of the combined mask, and a position survives
exactly when it was visible in the combined mask and is among the first
`max_contrib` still-visible positions of its row. -/
theorem filter_cutoff_on_combined_mask
    (xpl : SmartExplainer) (p : MaskParams) (k : Int) (cm : BMat) (i j : Nat)
    (hk : p.max_contrib = some k) (hk0 : k ≠ 0)
    (hcm : combined_mask xpl p = Except.ok cm) :
    filter xpl p = Except.ok { xpl with
        mask := some (cutoff_contributions cm k)
        masked_contributions := some (compute_masked_contributions
          xpl.data.contrib_sorted (cutoff_contributions cm k))
        mask_params := some p } ∧
    (((cutoff_contributions cm k).getD i []).getD j false = true ↔
      ((cm.getD i []).getD j false = true ∧
        (trueCount ((cm.getD i []).take (j + 1)) : Int) ≤ k)) := by
  constructor
  · have ht : truthyInt (some k) = true := by simp [truthyInt, hk0]
    unfold filter
    rw [hcm]
    simp [hk, ht]
  · rw [cutoff_contributions_getD]
    simpa using cutoff_row_getD k (cm.getD i []) 0 j

/-- C1 witness: the theorem applied to the example session with a cutoff
of 1 and the combined (here all-true) mask. -/
theorem filter_cutoff_on_combined_mask_app :
    filter exampleXpl ⟨none, none, none, some 1⟩ = Except.ok { exampleXpl with
        mask := some (cutoff_contributions [[true, true], [true, true]] 1)
        masked_contributions := some (compute_masked_contributions
          exampleXpl.data.contrib_sorted
          (cutoff_contributions [[true, true], [true, true]] 1))
        mask_params := some ⟨none, none, none, some 1⟩ } ∧
    ((((cutoff_contributions [[true, true], [true, true]] 1).getD 0 []).getD 1 false = true) ↔
      ((([[true, true], [true, true]] : BMat).getD 0 []).getD 1 false = true ∧
        (trueCount ((([[true, true], [true, true]] : BMat).getD 0 []).take 2) : Int) ≤ 1)) :=
  filter_cutoff_on_combined_mask exampleXpl ⟨none, none, none, some 1⟩ 1
    [[true, true], [true, true]] 0 1 rfl (by decide) rfl

/-- C3 counterexample: `filter` called with `threshold = -1 < 0` and
`max_contrib = 0 ≤ 0` does not reject the configuration — it computes a
mask and succeeds. -/
theorem filter_accepts_invalid_params_cex :
    (filter exampleXpl ⟨none, some (-1), none, some 0⟩).isOk = true := by
  decide

/-- C3 amended: `filter` performs no validation of `threshold` or
`max_contrib`: a call with a negative threshold or a non-positive cutoff
is not rejected — it computes and stores a mask (a zero `max_contrib` is
falsy and acts as unset; a negative threshold constrains nothing). -/
theorem filter_no_validation_of_params
    (xpl : SmartExplainer) (t : ℚ) (pos : Option Bool) (k : Int)
    (_h : t < 0 ∨ k ≤ 0) :
    (filter xpl ⟨none, some t, pos, some k⟩).isOk = true := by
  obtain ⟨s, hs, -⟩ := filter_none_hide_params xpl ⟨none, some t, pos, some k⟩ rfl
  rw [hs]
  rfl

/-- C3 amended witness: the theorem applied at a negative threshold. -/
theorem filter_no_validation_of_params_app :
    (filter exampleXpl ⟨none, some (-1), none, some 5⟩).isOk = true :=
  filter_no_validation_of_params exampleXpl (-1) none 5 (Or.inl (by decide))

/-- C4: criteria left unset impose no constraint — with no criterion
supplied, `filter` yields the all-true mask of the same shape as
`contrib_sorted` (and masks every contribution as visible). -/
theorem filter_defaults_all_true (xpl : SmartExplainer) :
    filter xpl ⟨none, none, none, none⟩ = Except.ok { xpl with
      mask := some (xpl.data.contrib_sorted.map (fun row => row.map (fun _ => true)))
      masked_contributions := some (xpl.data.contrib_sorted.map (fun r => r.map some))
      mask_params := some ⟨none, none, none, none⟩ } := by
  rw [filter_all_none_eq, masked_init]
  rfl

/-- C10: `compile` rejects a call supplying both an explainer and
precomputed contributions; with exactly one of the two (or neither) the
contribution source is resolved without error. -/
theorem compile_rejects_both_explainer_and_contributions
    {E C : Type} (e : E) (c : C) :
    (resolve_contributions (some e) (some c)).isOk = false ∧
    resolve_contributions (E := E) none (some c)
      = Except.ok (ContribSource.provided c none) ∧
    resolve_contributions (C := C) (some e) none
      = Except.ok (ContribSource.fromBackend (some e)) ∧
    resolve_contributions (E := E) (C := C) none none
      = Except.ok (ContribSource.fromBackend none) :=
  ⟨rfl, rfl, rfl, rfl⟩

/-- C2: `compute_features_stability` and `compute_features_compacity`
raise the unsupported-case error exactly on classification with strictly
more than two classes; on regression, and on classification with at most
two classes, neither raises it. -/
theorem stability_compacity_reject_multiclass
    (classes : List Int) (x contrib : QMat) (sel : List Nat) (k nb : Nat)
    (d : ℚ) :
    (compute_features_stability (Case.classification classes) x contrib sel k).isOk
        = decide (classes.length ≤ 2) ∧
    (compute_features_compacity (Case.classification classes) contrib sel d nb).isOk
        = decide (classes.length ≤ 2) ∧
    (compute_features_stability Case.regression x contrib sel k).isOk = true ∧
    (compute_features_compacity Case.regression contrib sel d nb).isOk = true := by
  unfold compute_features_stability compute_features_compacity multiclass_guard
  by_cases hc : 2 < classes.length
  · have hd : decide (classes.length ≤ 2) = false := by
      simp only [decide_eq_false_iff_not]; omega
    simp [hc, hd, isOk_ok, isOk_error, apply_ite Except.isOk]
  · have hd : decide (classes.length ≤ 2) = true := by
      simp only [decide_eq_true_eq]; omega
    simp [hc, hd, isOk_ok, isOk_error, apply_ite Except.isOk]

/-- The `distance_reached` array stored by `compute_features_compacity`
(empty when the computation errored). -/
def compacity_distance_reached :
    Except String (List Nat × List ℚ) → List ℚ
  | Except.ok (_, dr) => dr
  | Except.error _ => []

/-- Lower bound of the clip. -/
lemma clip01_nonneg (x : ℚ) : 0 ≤ clip01 x := le_max_left 0 _

/-- Upper bound of the clip. -/
lemma clip01_le_one (x : ℚ) : clip01 x ≤ 1 :=
  max_le (by norm_num) (min_le_left 1 x)

/-- Every position of a clipped list (its default included) lies in the
unit interval. -/
lemma clipped_getD_bounds (l : List ℚ) (i : Nat) :
    0 ≤ (l.map clip01).getD i 0 ∧ (l.map clip01).getD i 0 ≤ 1 := by
  induction l generalizing i with
  | nil => simp [List.getD]
  | cons a as ih =>
    cases i with
    | zero => simpa using ⟨clip01_nonneg a, clip01_le_one a⟩
    | succ n => simpa using ih n

/-- C6: every entry of the `distance_reached` array computed by
`compute_features_compacity` lies in the closed unit interval — distances
above one are capped at one before being stored. -/
theorem compacity_distance_reached_unit_interval
    (case : Case) (contrib : QMat) (sel : List Nat) (d : ℚ) (nb i : Nat)
    (hguard : multiclass_guard case = false) :
    (compute_features_compacity case contrib sel d nb).isOk = true ∧
    0 ≤ (compacity_distance_reached
          (compute_features_compacity case contrib sel d nb)).getD i 0 ∧
    (compacity_distance_reached
          (compute_features_compacity case contrib sel d nb)).getD i 0 ≤ 1 := by
  unfold compute_features_compacity
  rw [hguard]
  simp only [Bool.false_eq_true, if_false, isOk_ok, compacity_distance_reached,
    true_and]
  exact clipped_getD_bounds (get_distance sel contrib nb) i

/-- C6 witness: the theorem applied to a concrete regression selection. -/
theorem compacity_distance_reached_unit_interval_app :
    (compute_features_compacity Case.regression [[3, -1], [5, 2]] [0, 1] (1/2) 1).isOk = true ∧
    0 ≤ (compacity_distance_reached
          (compute_features_compacity Case.regression [[3, -1], [5, 2]] [0, 1] (1/2) 1)).getD 0 0 ∧
    (compacity_distance_reached
          (compute_features_compacity Case.regression [[3, -1], [5, 2]] [0, 1] (1/2) 1)).getD 0 0 ≤ 1 :=
  compacity_distance_reached_unit_interval Case.regression [[3, -1], [5, 2]]
    [0, 1] (1/2) 1 0 rfl

/-- The `variability` array of a stored stability result (empty unless the
multi-instance dictionary was produced). -/
def stability_variability : Except String StabilityResult → List (List ℚ)
  | Except.ok (StabilityResult.featuresStability v _) => v
  | _ => []

/-- The `amplitude` array of a stored stability result (empty unless the
multi-instance dictionary was produced). -/
def stability_amplitude : Except String StabilityResult → List (List ℚ)
  | Except.ok (StabilityResult.featuresStability _ a) => a
  | _ => []

/-- The `norm_shap` entry of a stored stability result (present exactly
for the single-instance dictionary). -/
def stability_norm_shap :
    Except String StabilityResult → Option (List (List ℚ))
  | Except.ok (StabilityResult.localNeighbors ns) => some ns
  | _ => none

/-- Whether the stored result is the multi-instance `features_stability`
dictionary. -/
def is_features_stability : Except String StabilityResult → Bool
  | Except.ok (StabilityResult.featuresStability _ _) => true
  | _ => false

/-- Whether the stored result is the single-instance `local_neighbors`
dictionary. -/
def is_local_neighbors : Except String StabilityResult → Bool
  | Except.ok (StabilityResult.localNeighbors _) => true
  | _ => false

/-- The variability row of one neighbor set has one entry per feature. -/
lemma shap_neighbors_variability_length (idxs : List Nat) (contrib : QMat) :
    ((shap_neighbors idxs contrib).2.1).length = (contrib.headD []).length := by
  simp [shap_neighbors]

/-- The amplitude row of one neighbor set has one entry per feature. -/
lemma shap_neighbors_amplitude_length (idxs : List Nat) (contrib : QMat) :
    ((shap_neighbors idxs contrib).2.2).length = (contrib.headD []).length := by
  simp [shap_neighbors]

/-- `find_neighbors` returns one neighbor set per selected instance. -/
lemma find_neighbors_length (sel : List Nat) (x : QMat) (k : Nat) :
    (find_neighbors sel x k).length = sel.length := by
  simp [find_neighbors]

/-- Positional access below the length commutes with `List.map`. -/
lemma getD_map_lt {α β : Type} (f : α → β) (l : List α) (r : Nat) (d : β)
    (h : r < l.length) :
    (l.map f).getD r d = f (l.get ⟨r, h⟩) := by
  rw [List.getD_eq_getElem?_getD, List.getElem?_map, List.getElem?_eq_getElem h]
  simp

/-- A multi-instance stability computation stores the two per-instance
arrays. -/
lemma stability_multi_eq (case : Case) (x contrib : QMat) (sel : List Nat)
    (k : Nat) (hguard : multiclass_guard case = false)
    (hne : sel.length ≠ 1) :
    compute_features_stability case x contrib sel k
      = Except.ok (StabilityResult.featuresStability
          ((find_neighbors sel x k).map (fun nb => (shap_neighbors nb contrib).2.1))
          ((find_neighbors sel x k).map (fun nb => (shap_neighbors nb contrib).2.2))) := by
  unfold compute_features_stability
  rw [hguard]
  simp [hne]

/-- A single-instance stability computation stores the normalized
contribution vectors of the instance and its neighbors. -/
lemma stability_single_eq (case : Case) (x contrib : QMat) (s k : Nat)
    (hguard : multiclass_guard case = false) :
    compute_features_stability case x contrib [s] k
      = Except.ok (StabilityResult.localNeighbors
          ((shap_neighbors (neighbors_of x k s) contrib).1)) := by
  unfold compute_features_stability
  rw [hguard]
  simp [find_neighbors]

/-- C5: for a multi-instance selection of `n` instances,
`compute_features_stability` stores the `features_stability` dictionary
with variability and amplitude arrays of shape (`n`, feature count); for a
single-instance selection it instead stores the `local_neighbors`
dictionary with the `norm_shap` vectors, and no variability/amplitude
arrays. -/
theorem stability_result_shapes
    (case : Case) (x contrib : QMat) (sel : List Nat) (s k r : Nat)
    (hguard : multiclass_guard case = false)
    (hn : 1 < sel.length) (hr : r < sel.length) :
    is_features_stability (compute_features_stability case x contrib sel k) = true ∧
    (stability_variability (compute_features_stability case x contrib sel k)).length
        = sel.length ∧
    (stability_amplitude (compute_features_stability case x contrib sel k)).length
        = sel.length ∧
    ((stability_variability (compute_features_stability case x contrib sel k)).getD r []).length
        = (contrib.headD []).length ∧
    ((stability_amplitude (compute_features_stability case x contrib sel k)).getD r []).length
        = (contrib.headD []).length ∧
    is_local_neighbors (compute_features_stability case x contrib [s] k) = true ∧
    is_features_stability (compute_features_stability case x contrib [s] k) = false ∧
    stability_norm_shap (compute_features_stability case x contrib [s] k)
        = some ((shap_neighbors (neighbors_of x k s) contrib).1) := by
  have hne : sel.length ≠ 1 := by omega
  have hm := stability_multi_eq case x contrib sel k hguard hne
  have hs := stability_single_eq case x contrib s k hguard
  have hlen : r < (find_neighbors sel x k).length := by
    rw [find_neighbors_length]; exact hr
  refine ⟨?_, ?_, ?_, ?_, ?_, ?_, ?_, ?_⟩
  · rw [hm]; rfl
  · rw [hm]
    simp [stability_variability, find_neighbors_length]
  · rw [hm]
    simp [stability_amplitude, find_neighbors_length]
  · rw [hm]
    show (((find_neighbors sel x k).map
      (fun nb => (shap_neighbors nb contrib).2.1)).getD r []).length = _
    rw [getD_map_lt _ _ _ _ hlen, shap_neighbors_variability_length]
  · rw [hm]
    show (((find_neighbors sel x k).map
      (fun nb => (shap_neighbors nb contrib).2.2)).getD r []).length = _
    rw [getD_map_lt _ _ _ _ hlen, shap_neighbors_amplitude_length]
  · rw [hs]; rfl
  · rw [hs]; rfl
  · rw [hs]; rfl

/-- C5 witness: the theorem applied to a concrete three-instance
regression data set with a two-instance selection and a singleton
selection. -/
theorem stability_result_shapes_app :
    is_features_stability (compute_features_stability Case.regression
      [[0], [1], [2]] [[3, -1], [5, 2], [1, 1]] [0, 1] 1) = true ∧
    (stability_variability (compute_features_stability Case.regression
      [[0], [1], [2]] [[3, -1], [5, 2], [1, 1]] [0, 1] 1)).length = ([0, 1] : List Nat).length ∧
    (stability_amplitude (compute_features_stability Case.regression
      [[0], [1], [2]] [[3, -1], [5, 2], [1, 1]] [0, 1] 1)).length = ([0, 1] : List Nat).length ∧
    ((stability_variability (compute_features_stability Case.regression
      [[0], [1], [2]] [[3, -1], [5, 2], [1, 1]] [0, 1] 1)).getD 0 []).length
        = (([[3, -1], [5, 2], [1, 1]] : QMat).headD []).length ∧
    ((stability_amplitude (compute_features_stability Case.regression
      [[0], [1], [2]] [[3, -1], [5, 2], [1, 1]] [0, 1] 1)).getD 0 []).length
        = (([[3, -1], [5, 2], [1, 1]] : QMat).headD []).length ∧
    is_local_neighbors (compute_features_stability Case.regression
      [[0], [1], [2]] [[3, -1], [5, 2], [1, 1]] [2] 1) = true ∧
    is_features_stability (compute_features_stability Case.regression
      [[0], [1], [2]] [[3, -1], [5, 2], [1, 1]] [2] 1) = false ∧
    stability_norm_shap (compute_features_stability Case.regression
      [[0], [1], [2]] [[3, -1], [5, 2], [1, 1]] [2] 1)
        = some ((shap_neighbors (neighbors_of [[0], [1], [2]] 1 2)
            [[3, -1], [5, 2], [1, 1]]).1) :=
  stability_result_shapes Case.regression [[0], [1], [2]]
    [[3, -1], [5, 2], [1, 1]] [0, 1] 2 1 0 rfl (by decide) (by decide)

/-- The number of rows of a `to_pandas` result (zero when it errored). -/
def output_rows :
    Except String (SmartExplainer × List (ℚ × List (String × ℚ × ℚ))) → Nat
  | Except.ok (_, out) => out.length
  | Except.error _ => 0

/-- `summarize` produces one row per instance of its shallowest input. -/
lemma summarize_length (cd : List (Nat × String)) (fd : List (String × String)) :
    ∀ (c : QMat) (v : NMat) (x : QMat) (m : BMat),
      (summarize cd fd c v x m).length
        = min (min (min c.length v.length) x.length) m.length
  | c :: cs, v :: vs, x :: xs, m :: ms => by
    have ih := summarize_length cd fd cs vs xs ms
    simp [summarize, ih]
    omega
  | [], v, x, m => by cases v <;> cases x <;> cases m <;> simp [summarize]
  | c :: cs, [], x, m => by cases x <;> cases m <;> simp [summarize]
  | c :: cs, v :: vs, [], m => by cases m <;> simp [summarize]
  | c :: cs, v :: vs, x :: xs, [] => by simp [summarize]

/-- C7: `to_pandas` rejects a session whose prediction values are absent
before producing any summary; with predictions present (and parallel
tables of matching row counts, no cached mask) it produces one output row
per instance, each joined with its prediction value. -/
theorem to_pandas_requires_y_pred
    (xpl1 xpl2 : SmartExplainer) (p : MaskParams) (ys : List ℚ)
    (h1 : xpl1.y_pred = none)
    (h2 : xpl2.y_pred = some ys)
    (hmp : xpl2.mask_params = none)
    (hys : ys.length = xpl2.data.contrib_sorted.length)
    (hv : xpl2.data.var_dict.length = xpl2.data.contrib_sorted.length)
    (hx : xpl2.data.x_sorted.length = xpl2.data.contrib_sorted.length) :
    (to_pandas xpl1 p).isOk = false ∧
    output_rows (to_pandas xpl2 ⟨none, none, none, none⟩)
      = xpl2.data.contrib_sorted.length := by
  constructor
  · unfold to_pandas
    rw [h1]
    rfl
  · unfold to_pandas
    rw [h2, hmp, filter_all_none_eq xpl2]
    simp [output_rows, summarize_length, init_mask, hys, hv, hx]

/-- C7 witness: the theorem applied at a session missing `y_pred` and the
two-instance example session. -/
theorem to_pandas_requires_y_pred_app :
    (to_pandas { exampleXpl with y_pred := none } ⟨none, some 1, none, none⟩).isOk = false ∧
    output_rows (to_pandas exampleXpl ⟨none, none, none, none⟩)
      = exampleXpl.data.contrib_sorted.length :=
  to_pandas_requires_y_pred { exampleXpl with y_pred := none } exampleXpl
    ⟨none, some 1, none, none⟩ [1, 0] rfl rfl rfl rfl rfl rfl

/-- Looking a key up in an appended association list starts with the left
part. -/
lemma lookup_append_some {β : Type} (l l' : List (String × β)) (a : String)
    (v : β) (h : l.lookup a = some v) : (l ++ l').lookup a = some v := by
  induction l with
  | nil => simp [List.lookup] at h
  | cons kv rest ih =>
    obtain ⟨k, w⟩ := kv
    cases hak : a == k
    · simp only [List.lookup, List.cons_append, hak] at h ⊢
      exact ih h
    · simp only [List.lookup, List.cons_append, hak] at h ⊢
      exact h

/-- Looking a key up in an appended association list falls through to the
right part when the left part misses it. -/
lemma lookup_append_none {β : Type} (l l' : List (String × β)) (a : String)
    (h : l.lookup a = none) : (l ++ l').lookup a = l'.lookup a := by
  induction l with
  | nil => rfl
  | cons kv rest ih =>
    obtain ⟨k, w⟩ := kv
    cases hak : a == k
    · simp only [List.lookup, List.cons_append, hak] at h ⊢
      exact ih h
    · simp only [List.lookup, List.cons_append, hak] at h
      exact Option.noConfusion h

/-- A column missing from the dictionary is found, mapped to itself, in
the self-mapped filtered column list. -/
lemma lookup_selfmap (columns : List String) (fd : List (String × String))
    (c : String) (hc : c ∈ columns) (hn : fd.lookup c = none) :
    ((columns.filter (fun x => (fd.lookup x).isNone)).map (fun x => (x, x))).lookup c
      = some c := by
  induction columns with
  | nil => cases hc
  | cons a as ih =>
    by_cases hca : c = a
    · subst hca
      have hpn : (fd.lookup c).isNone = true := by rw [hn]; rfl
      simp [List.filter_cons, hpn, List.lookup]
    · have hc' : c ∈ as := by
        rcases List.mem_cons.mp hc with h | h
        · exact absurd h hca
        · exact h
      have hne : (c == a) = false := beq_eq_false_iff_ne.mpr hca
      cases hfa : (fd.lookup a).isNone
      · simpa [List.filter_cons, hfa] using ih hc'
      · simp [List.filter_cons, hfa, List.lookup, hne]
        exact ih hc'

/-- C8: after `check_features_dict`, every prediction-set column is a key
of `features_dict` — kept as before when it already had an entry, and
mapped to itself (raw identifier as its own display name) when it was
missing. -/
theorem features_dict_missing_fallback
    (columns : List String) (fd : List (String × String)) (c : String)
    (hc : c ∈ columns) :
    (check_features_dict columns fd).lookup c = some ((fd.lookup c).getD c) := by
  unfold check_features_dict
  cases h : fd.lookup c with
  | some v =>
    rw [lookup_append_some _ _ _ _ h]
    rfl
  | none =>
    rw [lookup_append_none _ _ _ h, lookup_selfmap columns fd c hc h]
    rfl

/-- C8 witness: the theorem applied to a column absent from the supplied
dictionary. -/
theorem features_dict_missing_fallback_app :
    (check_features_dict ["age", "sex"] [("age", "Age")]).lookup "sex"
      = some (([("age", "Age")].lookup "sex").getD "sex") :=
  features_dict_missing_fallback ["age", "sex"] [("age", "Age")] "sex"
    (List.mem_cons_of_mem _ (List.mem_cons_self _ _))

/-- The session state returned by `to_pandas` (absent when it errored). -/
def to_pandas_state :
    Except String (SmartExplainer × List (ℚ × List (String × ℚ × ℚ))) →
      Option SmartExplainer
  | Except.ok (s, _) => some s
  | Except.error _ => none

/-- The cached filter parameters after a `to_pandas` call (absent when it
errored). -/
def mask_params_after (xpl : SmartExplainer) (p : MaskParams) :
    Option MaskParams :=
  match to_pandas xpl p with
  | Except.ok (s, _) => s.mask_params
  | Except.error _ => none

/-- C9: `to_pandas` with all four filter parameters unset reuses the
cached mask and parameters unchanged when a cache of matching shape
exists; as soon as any parameter is supplied, `filter` is re-run and the
cache is overwritten with the new parameters. -/
theorem to_pandas_mask_cache
    (xpl : SmartExplainer) (ys : List ℚ) (m : BMat) (mp q : MaskParams)
    (hy : xpl.y_pred = some ys)
    (hm : xpl.mask = some m)
    (hmp : xpl.mask_params = some mp)
    (hshape : shape_ok xpl.data.contrib_sorted m = true)
    (hq : allNoneB q = false)
    (hqh : q.features_to_hide = none) :
    to_pandas_state (to_pandas xpl ⟨none, none, none, none⟩) = some xpl ∧
    mask_params_after xpl q = some q := by
  constructor
  · unfold to_pandas
    rw [hy, hmp, hm]
    simp [allNoneB, hshape, to_pandas_state]
  · obtain ⟨s, hf, hsp⟩ := filter_none_hide_params xpl q hqh
    unfold mask_params_after to_pandas
    rw [hy]
    simp [hq, hf, hsp]

/-- C9 witness: the theorem applied to the cached example session, with a
threshold supplied in the overwriting call. -/
theorem to_pandas_mask_cache_app :
    to_pandas_state (to_pandas exampleXplCached ⟨none, none, none, none⟩)
      = some exampleXplCached ∧
    mask_params_after exampleXplCached ⟨none, some 1, none, none⟩
      = some ⟨none, some 1, none, none⟩ :=
  to_pandas_mask_cache exampleXplCached [1, 0] [[true, true], [true, true]]
    ⟨none, none, none, some 2⟩ ⟨none, some 1, none, none⟩
    rfl rfl rfl rfl rfl rfl

end Shapash
